import Mathlib

/-!
Verification development for the bedrock session controller
(`src/unnamed/part_001`) and the proxied client state machine
(`src/src/proxy-manager.js`).

Each definition is a shallow embedding of the corresponding JavaScript
function; mutable module-level variables become explicit state records,
timer callbacks become explicit events, and `undefined`/`null` become
`Option`.
-/

namespace Flamawings

/-! ## Items and slots (part_001 lines 144-157) -/

/-- An inventory item as used by the controller: only `network_id`,
`count` and `metadata` are ever inspected.  A slot holding `undefined`
is modelled as `none` at the slot level. -/
structure Item where
  network_id : Int
  count : Nat
  metadata : Nat
deriving DecidableEq, Repr

/-- Embeds `const EMPTY_ITEM = { network_id: 0 }`. -/
def EMPTY_ITEM : Item := { network_id := 0, count := 0, metadata := 0 }

/-- Embeds `const PLAYER_INVENTORY_WINDOW_ID = 0`. -/
def PLAYER_INVENTORY_WINDOW_ID : Int := 0

/-- Embeds `isEmptyItem(item)`: `!item || item.network_id === 0`. -/
def isEmptyItem : Option Item → Bool
  | none => true
  | some it => it.network_id == 0

/-- The scan inside `findFirstEmptyPlayerSlot`, carrying the current index. -/
def findFirstEmptyFrom : List (Option Item) → Nat → Option Nat
  | [], _ => none
  | it :: rest, i => if isEmptyItem it then some i else findFirstEmptyFrom rest (i + 1)

/-- Embeds `findFirstEmptyPlayerSlot()`: `null` when `playerInventoryItems` is not an
array, otherwise the least index holding an empty slot. -/
def findFirstEmptyPlayerSlot : Option (List (Option Item)) → Option Nat
  | none => none
  | some items => findFirstEmptyFrom items 0

/-! ## Container classification (part_001 lines 187-212) -/

/-- Argument record of `isUiLikeContainerSnapshot`.  `containerId` is the
optional `container.container_id` string hint, `dynamicId` the optional
numeric `container.dynamic_container_id` hint ( `some` models a present,
finite number), `size` is `packet.input.length` (0 when absent). -/
structure UiSnapshot where
  windowId : Int
  containerId : Option String
  dynamicId : Option Int
  size : Nat
deriving DecidableEq, Repr

/-- The `inventoryLike` set of recognised player-inventory container ids. -/
def inventoryLike : List String :=
  ["inventory", "hotbar", "hotbar_and_inventory", "offhand", "armor"]

/-- Embeds `isUiLikeContainerSnapshot({windowId, containerId, dynamicId, size})`,
rule for rule in source order. -/
def isUiLikeContainerSnapshot (s : UiSnapshot) : Bool :=
  if s.size == 36 then false
  else if (match s.containerId with
           | some cid => !(inventoryLike.contains cid)
           | none => false) then true
  else if s.dynamicId.isSome then true
  else if 0 < s.size && s.size != 36 then true
  else false

/-! ## Reconnect backoff arithmetic (part_001 lines 62-91) -/

/-- Embeds `const RECONNECT_BASE_MS = 2000`. -/
def RECONNECT_BASE_MS : Nat := 2000

/-- Embeds `const RECONNECT_MAX_MS = 60000`. -/
def RECONNECT_MAX_MS : Nat := 60000

/-- The `base` computed in `scheduleReconnect`:
`Math.min(RECONNECT_MAX_MS, RECONNECT_BASE_MS * Math.pow(2, Math.min(attempt, 6)))`. -/
def backoffBase (attempt : Nat) : Nat :=
  min RECONNECT_MAX_MS (RECONNECT_BASE_MS * 2 ^ (min attempt 6))

/-- The `wait` computed in `scheduleReconnect`:
`Math.max(250, (delayMs ?? base) + jitter)` with `jitter = Math.floor(Math.random()*500)`. -/
def reconnectWait (attempt : Nat) (delayMs : Option Nat) (jitter : Nat) : Nat :=
  max 250 ((delayMs.getD (backoffBase attempt)) + jitter)

/-! ## Readiness gate (part_001 lines 39-42, 307-352, 572-584, 648-649, 687-688)

The two flags `availableCommandsSeen` and `inventoryReady` and the ways the
packet handlers mutate them.  `markInventoryReady` is the only writer of
`inventoryReady`; the fallback timer body (lines 345-351) is the
`fallbackFire` signal. -/

structure ReadyFlags where
  availableCommandsSeen : Bool
  inventoryReady : Bool
deriving DecidableEq, Repr

/-- Initial flag values (lines 39-40). -/
def initReadyFlags : ReadyFlags := { availableCommandsSeen := false, inventoryReady := false }

/-- Embeds `markInventoryReady(reason)` restricted to the flags:
`if (inventoryReady) return; inventoryReady = true;`. -/
def markInventoryReady (s : ReadyFlags) : ReadyFlags :=
  if s.inventoryReady then s else { s with inventoryReady := true }

/-- The readiness signals a session can receive, in the order-free sense of
§4.1: the `available_commands` handler, any of the inventory-init handlers
(`start_game`, player `inventory_content`, player `inventory_slot`), and the
15000 ms fallback timer firing. -/
inductive ReadinessSignal where
  | availableCommands
  | inventorySignal
  | fallbackFire
deriving DecidableEq, Repr

/-- One readiness signal applied to the flags, following the handlers:
`available_commands` sets `availableCommandsSeen = true`; the inventory
handlers call `markInventoryReady`; the fallback timer body does
`if (inventoryReady) return;` then `markInventoryReady`. -/
def readinessStep (s : ReadyFlags) : ReadinessSignal → ReadyFlags
  | .availableCommands => { s with availableCommandsSeen := true }
  | .inventorySignal => markInventoryReady s
  | .fallbackFire => if s.inventoryReady then s else markInventoryReady s

/-- A whole sequence of readiness signals. -/
def runReadiness (s : ReadyFlags) : List ReadinessSignal → ReadyFlags
  | [] => s
  | sig :: rest => runReadiness (readinessStep s sig) rest

/-- The derived ready condition gating command dispatch, from
`onMaybeReady()`: `availableCommandsSeen && inventoryReady`. -/
def isReadyGate (s : ReadyFlags) : Bool :=
  s.availableCommandsSeen && s.inventoryReady

/-! ## Reconnection supervisor (part_001 lines 55-91, 469-477, 525-562, 773-787)

The module-level mutable variables become a record; `client` is abstracted to
a presence bit, and the pending reconnect timer to a scheduled flag plus the
wait it was scheduled with. -/

structure ReconnState where
  wantConnected : Bool
  clientPresent : Bool
  timerScheduled : Bool
  scheduledWait : Option Nat
  reconnectAttempt : Nat
  pendingReconnectDelayMs : Option Nat
deriving DecidableEq, Repr

/-- Initial module state (lines 56-60). -/
def initReconnState : ReconnState :=
  { wantConnected := false, clientPresent := false, timerScheduled := false,
    scheduledWait := none, reconnectAttempt := 0, pendingReconnectDelayMs := none }

/-- Embeds `clearReconnectTimer()`. -/
def clearReconnectTimer (s : ReconnState) : ReconnState :=
  { s with timerScheduled := false, scheduledWait := none }

/-- Embeds `scheduleReconnect(reason, delayMs)` with the random jitter made an
explicit argument; records the computed wait on the scheduled timer. -/
def scheduleReconnect (s : ReconnState) (delayMs : Option Nat) (jitter : Nat) : ReconnState :=
  if !s.wantConnected then s
  else if s.clientPresent then s
  else if s.timerScheduled then s
  else
    { s with timerScheduled := true,
             scheduledWait := some (reconnectWait s.reconnectAttempt delayMs jitter) }

/-- Embeds `connectServer()` restricted to the reconnect-relevant state:
`if (client) return; wantConnected = true; clearReconnectTimer();` then a
client is created. -/
def connectServer (s : ReconnState) : ReconnState :=
  if s.clientPresent then s
  else { (clearReconnectTimer s) with wantConnected := true, clientPresent := true }

/-- Substring test over character lists, used to embed
`String.prototype.includes`. -/
def containsSub (needle : List Char) : List Char → Bool
  | [] => needle.isPrefixOf []
  | c :: rest => needle.isPrefixOf (c :: rest) || containsSub needle rest

/-- Embeds `msg.toLowerCase().includes("already online")` from the kick handler
(lower-casing character by character). -/
def msgHasAlreadyOnline (msg : String) : Bool :=
  containsSub "already online".data (msg.data.map Char.toLower)

/-- The events that touch the reconnect state.  `timerFire` is the body of
the `setTimeout` callback in `scheduleReconnect` (it can only run while the
timer is scheduled); `kick msg` is the `client.on('kick')` handler restricted
to this state; `closeEvt jitter` is the `client.on('close')` handler
(`jitter` feeds the `scheduleReconnect` it performs); `connectCmd` and
`disconnectCmd` are the console `connect` / `disconnect` commands. -/
inductive ReconnEvent where
  | connectCmd
  | timerFire
  | kick (msg : String)
  | closeEvt (jitter : Nat)
  | disconnectCmd
deriving DecidableEq, Repr

/-- One event applied to the reconnect state. -/
def reconnStep (s : ReconnState) : ReconnEvent → ReconnState
  | .connectCmd => connectServer s
  | .timerFire =>
      if s.timerScheduled then
        connectServer { s with timerScheduled := false, scheduledWait := none,
                               reconnectAttempt := s.reconnectAttempt + 1 }
      else s
  | .kick msg =>
      -- Sets the delay hint and calls `client?.close()`; the client handle
      -- itself is only cleared when the 'close' event fires.
      if msgHasAlreadyOnline msg then
        { s with pendingReconnectDelayMs := some 30000 }
      else s
  | .closeEvt jitter =>
      let s := { s with clientPresent := false }
      let delay := s.pendingReconnectDelayMs
      let s := { s with pendingReconnectDelayMs := none }
      scheduleReconnect s delay jitter
  | .disconnectCmd =>
      -- `disconnectServer()`: `if (!client) return; wantConnected = false;
      -- clearReconnectTimer(); client.close();` (close event follows later).
      if !s.clientPresent then s
      else clearReconnectTimer { s with wantConnected := false }

/-- A whole sequence of reconnect events. -/
def runReconn (s : ReconnState) : List ReconnEvent → ReconnState
  | [] => s
  | e :: rest => runReconn (reconnStep s e) rest

/-! ## Slot transaction builder and clickSlot (part_001 lines 22-34, 354-440) -/

/-- The `State` enum of part_001. -/
inductive PState where
  | CONNECTING
  | WAIT_SPAWN
  | WAIT_AVAILABLE_COMMANDS
  | WAIT_INVENTORY_READY
  | READY
  | COMMAND_SENT
  | WAIT_UI
  | CONTAINER_OPENED
  | WAIT_CONTAINER_CONTENT
  | CLICK_SENT
  | DONE
deriving DecidableEq, Repr

/-- One action of an inventory transaction. -/
structure TxAction where
  source_type : String
  inventory_id : Int
  slot : Nat
  old_item : Item
  new_item : Item
deriving DecidableEq, Repr

/-- The transaction payload sent by `clickSlot`. -/
structure Transaction where
  transaction_type : String
  actions : List TxAction
deriving DecidableEq, Repr

/-- Embeds `buildNormalClickTransaction({windowId, slotIndex, item})`. -/
def buildNormalClickTransaction (windowId : Int) (slotIndex : Nat) (item : Item) :
    Transaction :=
  { transaction_type := "normal",
    actions := [
      { source_type := "container", inventory_id := windowId, slot := slotIndex,
        old_item := item, new_item := item } ] }

/-- Embeds `buildMoveToInventoryTransaction({windowId, fromSlot, toSlot, item})`. -/
def buildMoveToInventoryTransaction (windowId : Int) (fromSlot toSlot : Nat) (item : Item) :
    Transaction :=
  { transaction_type := "normal",
    actions := [
      { source_type := "container", inventory_id := windowId, slot := fromSlot,
        old_item := item, new_item := EMPTY_ITEM },
      { source_type := "container", inventory_id := PLAYER_INVENTORY_WINDOW_ID,
        slot := toSlot, old_item := EMPTY_ITEM, new_item := item } ] }

/-- The module-level mutable state that `clickSlot` reads and writes. -/
structure ClickState where
  clickSent : Bool
  state : PState
  currentWindowId : Option Int
  currentWindowItems : Option (List (Option Item))
  playerInventoryItems : Option (List (Option Item))
deriving DecidableEq, Repr

/-- Embeds `clickSlot(windowId, slotIndex)` as a pure step: returns the new state
and the transaction delivered to the transport (`none` when the function
returned early or `send` threw).  `sendOk` models whether
`client.queue(...)` succeeds. -/
def clickSlot (sendOk : Bool) (s : ClickState) (windowId : Int) (slotIndex : Int) :
    ClickState × Option Transaction :=
  if s.clickSent then (s, none)
  else if s.state ≠ PState.WAIT_CONTAINER_CONTENT then (s, none)
  else
    match s.currentWindowItems, s.currentWindowId with
    | some items, some cw =>
      if windowId ≠ cw then (s, none)
      else if slotIndex < 0 then (s, none)
      else
        -- `const item = currentWindowItems[slotIndex];`
        -- `if (!item || isEmptyItem(item)) return;`
        match items.getD slotIndex.toNat none with
        | none => (s, none)
        | some it =>
          if it.network_id == 0 then (s, none)
          else
            let destSlot := findFirstEmptyPlayerSlot s.playerInventoryItems
            let tx := match destSlot with
              | some d => buildMoveToInventoryTransaction cw slotIndex.toNat d it
              | none => buildNormalClickTransaction cw slotIndex.toNat it
            if sendOk then
              ({ s with clickSent := true, state := PState.CLICK_SENT }, some tx)
            else (s, none)
    | _, _ => (s, none)

/-- One `clickSlot` invocation: arguments plus whether the transport accepts
the send. -/
structure ClickReq where
  windowId : Int
  slotIndex : Int
  sendOk : Bool
deriving DecidableEq, Repr

/-- Run a sequence of `clickSlot` calls, counting delivered transactions. -/
def runClicks (s : ClickState) : List ClickReq → ClickState × Nat
  | [] => (s, 0)
  | r :: rest =>
    let p := clickSlot r.sendOk s r.windowId r.slotIndex
    let q := runClicks p.1 rest
    (q.1, (if p.2.isSome then 1 else 0) + q.2)

/-! ## Proxied client state machine (src/src/proxy-manager.js lines 108-252) -/

/-- The `ClientState` enum. -/
inductive ClientState where
  | DISCONNECTED
  | CONNECTING
  | AUTHENTICATING
  | RESOURCE_PACKS
  | SPAWNING
  | WAITING_COMMANDS
  | WAIT_INVENTORY_READY
  | READY
  | COMMAND_SENT
  | WAITING_GUI
  | GUI_RECEIVED
  | CLICKING_SLOT
  | COMPLETED
  | ERROR
deriving DecidableEq, Repr

/-- The string each `ClientState` value denotes. -/
def clientStateName : ClientState → String
  | .DISCONNECTED => "DISCONNECTED"
  | .CONNECTING => "CONNECTING"
  | .AUTHENTICATING => "AUTHENTICATING"
  | .RESOURCE_PACKS => "RESOURCE_PACKS"
  | .SPAWNING => "SPAWNING"
  | .WAITING_COMMANDS => "WAITING_COMMANDS"
  | .WAIT_INVENTORY_READY => "WAIT_INVENTORY_READY"
  | .READY => "READY"
  | .COMMAND_SENT => "COMMAND_SENT"
  | .WAITING_GUI => "WAITING_GUI"
  | .GUI_RECEIVED => "GUI_RECEIVED"
  | .CLICKING_SLOT => "CLICKING_SLOT"
  | .COMPLETED => "COMPLETED"
  | .ERROR => "ERROR"

/-- Embeds `StateMachine._buildTransitions()`: the allowed-successor table. -/
def transitionsTable : ClientState → List ClientState
  | .DISCONNECTED => [.CONNECTING]
  | .CONNECTING => [.AUTHENTICATING, .ERROR]
  | .AUTHENTICATING => [.RESOURCE_PACKS, .SPAWNING, .ERROR]
  | .RESOURCE_PACKS => [.SPAWNING, .ERROR]
  | .SPAWNING => [.WAITING_COMMANDS, .WAIT_INVENTORY_READY, .READY, .ERROR]
  | .WAITING_COMMANDS => [.READY, .ERROR]
  | .WAIT_INVENTORY_READY => [.READY, .ERROR]
  | .READY => [.COMMAND_SENT, .ERROR]
  | .COMMAND_SENT => [.READY, .WAITING_GUI, .ERROR]
  | .WAITING_GUI => [.GUI_RECEIVED, .READY, .ERROR]
  | .GUI_RECEIVED => [.CLICKING_SLOT, .ERROR]
  | .CLICKING_SLOT => [.COMPLETED, .ERROR]
  | .COMPLETED => []
  | .ERROR => []

/-- Embeds `StateMachine.canTransition(newState)`. -/
def canTransition (s t : ClientState) : Bool :=
  (transitionsTable s).contains t

/-- Embeds `this.stateData` of the `StateMachine`. -/
structure StateData where
  commandsAvailable : Bool
  inventoryReady : Bool
  windowId : Option Int
  containerType : Option String
  containerSlots : Option Nat
deriving DecidableEq, Repr

/-- The `stateData` value installed by the constructor and by `reset()`. -/
def initStateData : StateData :=
  { commandsAvailable := false, inventoryReady := false,
    windowId := none, containerType := none, containerSlots := none }

/-- A `StateMachine` instance (logger abstracted away; the error line a
failed transition would log is returned instead). -/
structure Machine where
  state : ClientState
  stateData : StateData
deriving DecidableEq, Repr

/-- Result of `StateMachine.transition`: the returned boolean, the machine
afterwards, and the `logger.error` line emitted on rejection. -/
structure TransitionResult where
  ok : Bool
  machine : Machine
  errorLog : Option String
deriving DecidableEq, Repr

/-- Embeds `StateMachine.transition(newState)`. -/
def transition (m : Machine) (t : ClientState) : TransitionResult :=
  if !canTransition m.state t then
    { ok := false, machine := m,
      errorLog := some ("Invalid transition: " ++ clientStateName m.state ++ " → " ++
        clientStateName t ++ ". " ++ "Allowed: " ++
        String.intercalate ", " ((transitionsTable m.state).map clientStateName)) }
  else
    { ok := true, machine := { m with state := t }, errorLog := none }

/-- Embeds `StateMachine.reset()`. -/
def reset (_m : Machine) : Machine :=
  { state := ClientState.DISCONNECTED, stateData := initStateData }

/-! ## Theorems -/

/-- C3: a window snapshot whose `size` is 36 is classified as not foreign,
whatever the `containerId` and `dynamicId` hints are: the `size === 36`
check is the first rule and returns `false` immediately. -/
theorem C3_size36_not_foreign (s : UiSnapshot) (h : s.size = 36) :
    isUiLikeContainerSnapshot s = false := by
  simp [isUiLikeContainerSnapshot, h]

/-- Witness for C3 at a snapshot carrying both a foreign container id and a
numeric dynamic id. -/
theorem C3_size36_not_foreign_witness :
    ({ windowId := 0, containerId := some "generic", dynamicId := some 7,
       size := 36 } : UiSnapshot).size = 36 ∧
    isUiLikeContainerSnapshot
      { windowId := 0, containerId := some "generic", dynamicId := some 7,
        size := 36 } = false :=
  ⟨rfl, C3_size36_not_foreign _ rfl⟩

/-- C2 counterexample: the claim says a present, numeric `dynamicIdHint`
forces `isForeignUI = true` with no precondition on the slot count, but the
`size === 36` rule runs first: a 36-slot snapshot with `dynamicId = 5` is
classified as not foreign. -/
theorem C2_counterexample :
    isUiLikeContainerSnapshot
      { windowId := 0, containerId := none, dynamicId := some 5, size := 36 }
      = false := rfl

/-- C2 (amended): a present, numeric `dynamicIdHint` forces
`isForeignUI = true` provided the snapshot's `size` is not 36 (the one
earlier rule that can pre-empt it); the `containerIdHint` still does not
matter, since both the hint rule and the dynamic-id rule return `true`. -/
theorem C2_dynamic_id_foreign (s : UiSnapshot) (hdyn : s.dynamicId.isSome = true)
    (hsize : s.size ≠ 36) :
    isUiLikeContainerSnapshot s = true := by
  have h36 : (s.size == 36) = false := by simp [hsize]
  unfold isUiLikeContainerSnapshot
  rw [h36]
  simp only [Bool.false_eq_true, if_false]
  split
  · rfl
  · simp [hdyn]

/-- Witness for C2 (amended) at a 27-slot snapshot with an inventory-like
container id and dynamic id 3. -/
theorem C2_dynamic_id_foreign_witness :
    ({ windowId := 2, containerId := some "inventory", dynamicId := some 3,
       size := 27 } : UiSnapshot).dynamicId.isSome = true ∧
    isUiLikeContainerSnapshot
      { windowId := 2, containerId := some "inventory", dynamicId := some 3,
        size := 27 } = true :=
  ⟨rfl, C2_dynamic_id_foreign _ rfl (by decide)⟩

/-- C5: with no explicit delay override, the scheduled wait is
`max 250 (min 60000 (2000 * 2^(min a 6)) + j)` for the drawn jitter
`j < 500`; the pre-jitter base equals `2000 * 2^a` capped at 60000 for
`a ≤ 6`, is exactly 60000 for every `a ≥ 7`, and is monotone
non-decreasing in the attempt counter. -/
theorem C5_backoff_formula (a j : Nat) (hj : j < 500) :
    reconnectWait a none j = max 250 (min 60000 (2000 * 2 ^ (min a 6)) + j)
    ∧ (a ≤ 6 → backoffBase a = min 60000 (2000 * 2 ^ a))
    ∧ (7 ≤ a → backoffBase a = 60000)
    ∧ (∀ b, a ≤ b → backoffBase a ≤ backoffBase b) := by
  refine ⟨rfl, ?_, ?_, ?_⟩
  · intro h
    unfold backoffBase RECONNECT_BASE_MS RECONNECT_MAX_MS
    rw [Nat.min_eq_left h]
  · intro h
    have h6 : min a 6 = 6 := by omega
    unfold backoffBase RECONNECT_BASE_MS RECONNECT_MAX_MS
    rw [h6]
    decide
  · intro b hab
    unfold backoffBase
    gcongr <;> omega

/-- Witness for C5 at `attempt = 3`, `jitter = 100`. -/
theorem C5_backoff_formula_witness :
    100 < 500 ∧
    reconnectWait 3 none 100 = max 250 (min 60000 (2000 * 2 ^ (min 3 6)) + 100) :=
  ⟨by decide, (C5_backoff_formula 3 100 (by decide)).1⟩

/-- Shared helper: what `transition` does on a rejected request. -/
theorem transition_rejected (m : Machine) (t : ClientState)
    (h : canTransition m.state t = false) :
    (transition m t).ok = false
    ∧ (transition m t).machine = m
    ∧ (transition m t).errorLog =
        some ("Invalid transition: " ++ clientStateName m.state ++ " → " ++
          clientStateName t ++ ". " ++ "Allowed: " ++
          String.intercalate ", " ((transitionsTable m.state).map clientStateName)) := by
  simp [transition, h]

/-- C8: a transition request not in the allowed-successor set of the current
state returns `false`, leaves the machine unchanged, and logs a diagnostic
that names the disallowed pair (and the allowed successors). -/
theorem C8_illegal_transition (m : Machine) (t : ClientState)
    (h : canTransition m.state t = false) :
    (transition m t).ok = false
    ∧ (transition m t).machine = m
    ∧ (transition m t).errorLog =
        some ("Invalid transition: " ++ clientStateName m.state ++ " → " ++
          clientStateName t ++ ". " ++ "Allowed: " ++
          String.intercalate ", " ((transitionsTable m.state).map clientStateName)) :=
  transition_rejected m t h

/-- Witness for C8 at the disallowed pair `READY → SPAWNING`. -/
theorem C8_illegal_transition_witness :
    canTransition ClientState.READY ClientState.SPAWNING = false ∧
    (transition { state := ClientState.READY, stateData := initStateData }
        ClientState.SPAWNING).ok = false ∧
    (transition { state := ClientState.READY, stateData := initStateData }
        ClientState.SPAWNING).machine =
      { state := ClientState.READY, stateData := initStateData } :=
  ⟨rfl,
    (C8_illegal_transition { state := ClientState.READY, stateData := initStateData }
      ClientState.SPAWNING rfl).1,
    (C8_illegal_transition { state := ClientState.READY, stateData := initStateData }
      ClientState.SPAWNING rfl).2.1⟩

/-- C10: `COMPLETED` and `ERROR` have empty allowed-successor sets, every
transition attempted from them fails and leaves the machine unchanged, and
`reset()` returns the machine to `DISCONNECTED` with all `stateData` flags
cleared. -/
theorem C10_terminal_states_absorbing (m : Machine) (t : ClientState)
    (h : m.state = ClientState.COMPLETED ∨ m.state = ClientState.ERROR) :
    transitionsTable ClientState.COMPLETED = []
    ∧ transitionsTable ClientState.ERROR = []
    ∧ (transition m t).ok = false
    ∧ (transition m t).machine = m
    ∧ (reset m).state = ClientState.DISCONNECTED
    ∧ (reset m).stateData = initStateData := by
  have hc : canTransition m.state t = false := by
    rcases h with h | h <;> simp [canTransition, h, transitionsTable]
  exact ⟨rfl, rfl, (transition_rejected m t hc).1, (transition_rejected m t hc).2.1,
    rfl, rfl⟩

/-- Witness for C10 from the `ERROR` state towards `READY`. -/
theorem C10_terminal_states_absorbing_witness :
    (({ state := ClientState.ERROR, stateData := initStateData } : Machine).state =
        ClientState.COMPLETED ∨
      ({ state := ClientState.ERROR, stateData := initStateData } : Machine).state =
        ClientState.ERROR) ∧
    (transition { state := ClientState.ERROR, stateData := initStateData }
        ClientState.READY).ok = false ∧
    (reset { state := ClientState.ERROR, stateData := initStateData }).state =
      ClientState.DISCONNECTED :=
  ⟨Or.inr rfl,
    (C10_terminal_states_absorbing
      { state := ClientState.ERROR, stateData := initStateData }
      ClientState.READY (Or.inr rfl)).2.2.1,
    (C10_terminal_states_absorbing
      { state := ClientState.ERROR, stateData := initStateData }
      ClientState.READY (Or.inr rfl)).2.2.2.2.1⟩

/-! ### Readiness gate lemmas -/

theorem markInventoryReady_inv (s : ReadyFlags) :
    (markInventoryReady s).inventoryReady = true := by
  unfold markInventoryReady
  split <;> simp_all

theorem markInventoryReady_ac (s : ReadyFlags) :
    (markInventoryReady s).availableCommandsSeen = s.availableCommandsSeen := by
  unfold markInventoryReady
  split <;> rfl

theorem readinessStep_ac (s : ReadyFlags) (sig : ReadinessSignal) :
    (readinessStep s sig).availableCommandsSeen =
      (s.availableCommandsSeen || (sig = ReadinessSignal.availableCommands)) := by
  cases sig
  · simp [readinessStep]
  · simp [readinessStep, markInventoryReady_ac]
  · simp only [readinessStep]
    split <;> simp [markInventoryReady_ac]

theorem readinessStep_inv (s : ReadyFlags) (sig : ReadinessSignal) :
    (readinessStep s sig).inventoryReady =
      (s.inventoryReady || (sig = ReadinessSignal.inventorySignal) ||
        (sig = ReadinessSignal.fallbackFire)) := by
  cases sig <;>
    simp [readinessStep, markInventoryReady_inv] <;>
    unfold markInventoryReady <;> split <;> simp_all

theorem runReadiness_ac (sigs : List ReadinessSignal) :
    ∀ s : ReadyFlags, (runReadiness s sigs).availableCommandsSeen =
      (s.availableCommandsSeen || decide (ReadinessSignal.availableCommands ∈ sigs)) := by
  induction sigs with
  | nil => intro s; simp [runReadiness]
  | cons sig rest ih =>
    intro s
    rw [runReadiness, ih, readinessStep_ac]
    cases sig <;> simp [List.mem_cons]

theorem runReadiness_inv (sigs : List ReadinessSignal) :
    ∀ s : ReadyFlags, (runReadiness s sigs).inventoryReady =
      (s.inventoryReady || decide (ReadinessSignal.inventorySignal ∈ sigs) ||
        decide (ReadinessSignal.fallbackFire ∈ sigs)) := by
  induction sigs with
  | nil => intro s; simp [runReadiness]
  | cons sig rest ih =>
    intro s
    rw [runReadiness, ih, readinessStep_inv]
    cases sig <;> simp [List.mem_cons]

/-- C1: starting from the initial flags, the derived ready gate is true iff
`available_commands` was seen and some inventory-init signal or the fallback
timer fired; the gate value is invariant under reordering of the signal
sequence; and `inventoryReady` is sticky: once true, no signal sequence
retracts it. -/
theorem C1_readiness_gate (sigs sigs' : List ReadinessSignal) (s : ReadyFlags)
    (hperm : sigs.Perm sigs') (hs : s.inventoryReady = true) :
    (isReadyGate (runReadiness initReadyFlags sigs) = true ↔
      (ReadinessSignal.availableCommands ∈ sigs ∧
        (ReadinessSignal.inventorySignal ∈ sigs ∨ ReadinessSignal.fallbackFire ∈ sigs)))
    ∧ isReadyGate (runReadiness initReadyFlags sigs) =
        isReadyGate (runReadiness initReadyFlags sigs')
    ∧ (runReadiness s sigs).inventoryReady = true := by
  have hchar : ∀ l : List ReadinessSignal,
      isReadyGate (runReadiness initReadyFlags l) = true ↔
        (ReadinessSignal.availableCommands ∈ l ∧
          (ReadinessSignal.inventorySignal ∈ l ∨ ReadinessSignal.fallbackFire ∈ l)) := by
    intro l
    rw [isReadyGate, Bool.and_eq_true, runReadiness_ac, runReadiness_inv]
    simp [initReadyFlags]
  refine ⟨hchar sigs, ?_, ?_⟩
  · rw [Bool.eq_iff_iff, hchar sigs, hchar sigs']
    constructor
    · rintro ⟨h1, h2⟩
      exact ⟨hperm.mem_iff.mp h1, h2.imp hperm.mem_iff.mp hperm.mem_iff.mp⟩
    · rintro ⟨h1, h2⟩
      exact ⟨hperm.mem_iff.mpr h1, h2.imp hperm.mem_iff.mpr hperm.mem_iff.mpr⟩
  · rw [runReadiness_inv, hs]
    rfl

/-- Witness for C1: the two readiness signals delivered in both orders from
a state where `inventoryReady` already holds. -/
theorem C1_readiness_gate_witness :
    ([ReadinessSignal.inventorySignal, ReadinessSignal.availableCommands].Perm
      [ReadinessSignal.availableCommands, ReadinessSignal.inventorySignal]) ∧
    isReadyGate (runReadiness initReadyFlags
      [ReadinessSignal.inventorySignal, ReadinessSignal.availableCommands]) =
      isReadyGate (runReadiness initReadyFlags
        [ReadinessSignal.availableCommands, ReadinessSignal.inventorySignal]) ∧
    (runReadiness { availableCommandsSeen := false, inventoryReady := true }
      [ReadinessSignal.inventorySignal, ReadinessSignal.availableCommands]).inventoryReady
      = true :=
  ⟨List.Perm.swap _ _ _,
    (C1_readiness_gate _ _ { availableCommandsSeen := false, inventoryReady := true }
      (List.Perm.swap _ _ _) rfl).2.1,
    (C1_readiness_gate _ _ { availableCommandsSeen := false, inventoryReady := true }
      (List.Perm.swap _ _ _) rfl).2.2⟩

/-! ### Reconnect attempt counter -/

theorem connectServer_attempt (s : ReconnState) :
    (connectServer s).reconnectAttempt = s.reconnectAttempt := by
  unfold connectServer clearReconnectTimer
  split <;> rfl

theorem scheduleReconnect_attempt (s : ReconnState) (delayMs : Option Nat) (jitter : Nat) :
    (scheduleReconnect s delayMs jitter).reconnectAttempt = s.reconnectAttempt := by
  unfold scheduleReconnect
  split <;> try rfl
  split <;> try rfl
  split <;> rfl

theorem reconnStep_attempt (s : ReconnState) (e : ReconnEvent) :
    (reconnStep s e).reconnectAttempt =
      (if e = ReconnEvent.timerFire ∧ s.timerScheduled = true
       then s.reconnectAttempt + 1 else s.reconnectAttempt) := by
  cases e with
  | connectCmd => simp [reconnStep, connectServer_attempt]
  | timerFire =>
    by_cases h : s.timerScheduled = true
    · simp [reconnStep, h, connectServer_attempt]
    · simp at h
      simp [reconnStep, h]
  | kick msg => simp only [reconnStep]; split <;> simp
  | closeEvt jitter => simp [reconnStep, scheduleReconnect_attempt]
  | disconnectCmd =>
    simp only [reconnStep]
    split <;> simp [clearReconnectTimer]

theorem runReconn_attempt_mono (tr : List ReconnEvent) :
    ∀ s : ReconnState, s.reconnectAttempt ≤ (runReconn s tr).reconnectAttempt := by
  induction tr with
  | nil => intro s; exact Nat.le_refl _
  | cons e rest ih =>
    intro s
    refine Nat.le_trans ?_ (ih (reconnStep s e))
    rw [reconnStep_attempt]
    split <;> omega

/-- C6 counterexample: a session connects, loses the connection, reconnects
once (attempt counter now 1), and the user then issues an explicit
`disconnect`; the disconnect takes effect (`wantConnected` is cleared and no
timer is pending) but the attempt counter stays 1 — `disconnectServer()`
never resets `reconnectAttempt`, contradicting the "and always by" part of
the claim. -/
theorem C6_counterexample :
    (runReconn initReconnState
      [ReconnEvent.connectCmd, ReconnEvent.closeEvt 0, ReconnEvent.timerFire,
       ReconnEvent.disconnectCmd]).reconnectAttempt = 1
    ∧ (runReconn initReconnState
        [ReconnEvent.connectCmd, ReconnEvent.closeEvt 0, ReconnEvent.timerFire,
         ReconnEvent.disconnectCmd]).wantConnected = false
    ∧ (runReconn initReconnState
        [ReconnEvent.connectCmd, ReconnEvent.closeEvt 0, ReconnEvent.timerFire,
         ReconnEvent.disconnectCmd]).timerScheduled = false := by
  refine ⟨?_, ?_, ?_⟩ <;> rfl

/-- C6 (amended): the attempt counter is incremented exactly when a
scheduled reconnect timer fires, and no event ever decreases or resets it —
connection close, kick, successful connect and explicit user disconnect all
leave it unchanged (the explicit disconnect cancels a pending timer but
keeps the counter), so it is monotone over every event sequence. -/
theorem C6_attempt_lifecycle (s : ReconnState) (e : ReconnEvent)
    (tr : List ReconnEvent) :
    (reconnStep s e).reconnectAttempt =
      (if e = ReconnEvent.timerFire ∧ s.timerScheduled = true
       then s.reconnectAttempt + 1 else s.reconnectAttempt)
    ∧ s.reconnectAttempt ≤ (runReconn s tr).reconnectAttempt :=
  ⟨reconnStep_attempt s e, runReconn_attempt_mono tr s⟩

/-- C7: after a kick whose message contains "already online"
(case-insensitively), the close that follows schedules the reconnect with
the fixed 30000 ms override (plus jitter) instead of the computed backoff
base, whatever the current attempt counter is. -/
theorem C7_already_online_cooldown (s : ReconnState) (msg : String) (j : Nat)
    (hmsg : msgHasAlreadyOnline msg = true)
    (hwant : s.wantConnected = true)
    (htimer : s.timerScheduled = false) :
    (runReconn s [ReconnEvent.kick msg, ReconnEvent.closeEvt j]).scheduledWait =
      some (30000 + j)
    ∧ (runReconn s [ReconnEvent.kick msg, ReconnEvent.closeEvt j]).timerScheduled
        = true := by
  have h250 : max 250 (30000 + j) = 30000 + j := Nat.max_eq_right (by omega)
  simp [runReconn, reconnStep, hmsg, scheduleReconnect, hwant, htimer,
    reconnectWait, h250]

/-- Witness for C7: kick message "Disconnected: ALREADY online!", jitter 123,
from a connected session wanting to stay connected. -/
theorem C7_already_online_cooldown_witness :
    msgHasAlreadyOnline "Disconnected: ALREADY online!" = true ∧
    (runReconn
      { initReconnState with wantConnected := true, clientPresent := true }
      [ReconnEvent.kick "Disconnected: ALREADY online!",
       ReconnEvent.closeEvt 123]).scheduledWait = some (30000 + 123) :=
  ⟨by decide,
    (C7_already_online_cooldown
      { initReconnState with wantConnected := true, clientPresent := true }
      "Disconnected: ALREADY online!" 123 (by decide) rfl rfl).1⟩

/-! ### clickSlot lemmas -/

theorem clickSlot_already_sent (sendOk : Bool) (s : ClickState) (w i : Int)
    (h : s.clickSent = true) :
    clickSlot sendOk s w i = (s, none) := by
  simp [clickSlot, h]

theorem clickSlot_cases (sendOk : Bool) (s : ClickState) (w i : Int) :
    clickSlot sendOk s w i = (s, none)
    ∨ ((clickSlot sendOk s w i).1.clickSent = true
        ∧ (clickSlot sendOk s w i).2.isSome = true) := by
  unfold clickSlot
  repeat' split
  all_goals simp

theorem clickSlot_emit_sets_sent (sendOk : Bool) (s : ClickState) (w i : Int)
    (h : (clickSlot sendOk s w i).2.isSome = true) :
    (clickSlot sendOk s w i).1.clickSent = true := by
  rcases clickSlot_cases sendOk s w i with hc | hc
  · rw [hc] at h
    simp at h
  · exact hc.1

theorem runClicks_sent_zero (reqs : List ClickReq) :
    ∀ s : ClickState, s.clickSent = true → (runClicks s reqs).2 = 0 := by
  induction reqs with
  | nil => intro s _; rfl
  | cons r rest ih =>
    intro s hs
    rw [runClicks]
    rw [clickSlot_already_sent r.sendOk s r.windowId r.slotIndex hs]
    simpa using ih s hs

/-- C9: from any state, a run of consecutive `clickSlot` calls (no resets of
`clickSent` in between) delivers at most one transaction to the transport;
once `clickSent` is already set, it delivers none at all. -/
theorem C9_click_at_most_once (s : ClickState) (reqs : List ClickReq) :
    (runClicks s reqs).2 ≤ 1
    ∧ (s.clickSent = true → (runClicks s reqs).2 = 0) := by
  constructor
  · induction reqs generalizing s with
    | nil => exact Nat.zero_le _
    | cons r rest ih =>
      rw [runClicks]
      by_cases hemit : (clickSlot r.sendOk s r.windowId r.slotIndex).2.isSome = true
      · have hsent := clickSlot_emit_sets_sent r.sendOk s r.windowId r.slotIndex hemit
        rw [runClicks_sent_zero rest _ hsent]
        simp [hemit]
      · rw [Option.not_isSome_iff_eq_none] at hemit
        simp [hemit]
        exact ih _
  · exact runClicks_sent_zero reqs s

/-- Witness for C9: three clicks on a loaded container send exactly one
transaction, and none from a state where the click was already sent. -/
theorem C9_click_at_most_once_witness :
    (runClicks
      { clickSent := false, state := PState.WAIT_CONTAINER_CONTENT,
        currentWindowId := some 3,
        currentWindowItems := some [some { network_id := 9, count := 1, metadata := 0 }],
        playerInventoryItems := none }
      [{ windowId := 3, slotIndex := 0, sendOk := true },
       { windowId := 3, slotIndex := 0, sendOk := true },
       { windowId := 3, slotIndex := 0, sendOk := true }]).2 ≤ 1
    ∧ (({ clickSent := true, state := PState.WAIT_CONTAINER_CONTENT,
          currentWindowId := some 3,
          currentWindowItems := some [some { network_id := 9, count := 1, metadata := 0 }],
          playerInventoryItems := none } : ClickState).clickSent = true →
        (runClicks
          { clickSent := true, state := PState.WAIT_CONTAINER_CONTENT,
            currentWindowId := some 3,
            currentWindowItems := some [some { network_id := 9, count := 1, metadata := 0 }],
            playerInventoryItems := none }
          [{ windowId := 3, slotIndex := 0, sendOk := true },
           { windowId := 3, slotIndex := 0, sendOk := true },
           { windowId := 3, slotIndex := 0, sendOk := true }]).2 = 0) :=
  ⟨(C9_click_at_most_once _ _).1, fun _ => (C9_click_at_most_once _ _).2 rfl⟩

/-! ### First-empty-slot scan -/

theorem findFirstEmptyFrom_shift (k : Nat) :
    ∀ (items : List (Option Item)) (m : Nat),
      findFirstEmptyFrom items (m + k) =
        (findFirstEmptyFrom items m).map (· + k) := by
  intro items
  induction items with
  | nil => intro m; rfl
  | cons it rest ih =>
    intro m
    rw [findFirstEmptyFrom, findFirstEmptyFrom]
    by_cases hemp : isEmptyItem it = true
    · rw [if_pos hemp, if_pos hemp]
      rfl
    · rw [if_neg hemp, if_neg hemp]
      have hm : m + k + 1 = (m + 1) + k := by omega
      rw [hm, ih (m + 1)]

theorem findFirstEmptyFrom_zero_spec :
    ∀ (items : List (Option Item)) (d : Nat),
      findFirstEmptyFrom items 0 = some d →
      d < items.length ∧ isEmptyItem (items.getD d none) = true
        ∧ ∀ j, j < d → isEmptyItem (items.getD j none) = false := by
  intro items
  induction items with
  | nil => intro d h; simp [findFirstEmptyFrom] at h
  | cons it rest ih =>
    intro d h
    rw [findFirstEmptyFrom] at h
    by_cases hemp : isEmptyItem it = true
    · rw [if_pos hemp] at h
      obtain rfl : (0 : Nat) = d := Option.some.inj h
      refine ⟨Nat.succ_pos _, by simpa using hemp, ?_⟩
      intro j hj
      exact absurd hj (Nat.not_lt_zero j)
    · rw [if_neg hemp] at h
      have hs : findFirstEmptyFrom rest 1 =
          (findFirstEmptyFrom rest 0).map (· + 1) := findFirstEmptyFrom_shift 1 rest 0
      rw [hs] at h
      cases hr : findFirstEmptyFrom rest 0 with
      | none => rw [hr] at h; simp at h
      | some e =>
        rw [hr] at h
        obtain rfl : e + 1 = d := Option.some.inj h
        obtain ⟨hlen, hempty, hmin⟩ := ih e hr
        refine ⟨by simpa using hlen, by simpa using hempty, ?_⟩
        intro j hj
        cases j with
        | zero => simpa using Bool.eq_false_iff.mpr hemp
        | succ j =>
          have : j < e := by omega
          simpa using hmin j this

theorem findFirstEmptyFrom_zero_none :
    ∀ (items : List (Option Item)), findFirstEmptyFrom items 0 = none →
      ∀ j, j < items.length → isEmptyItem (items.getD j none) = false := by
  intro items
  induction items with
  | nil => intro _ j hj; simp at hj
  | cons it rest ih =>
    intro h j hj
    rw [findFirstEmptyFrom] at h
    by_cases hemp : isEmptyItem it = true
    · rw [if_pos hemp] at h; exact absurd h (by simp)
    · rw [if_neg hemp] at h
      have hs : findFirstEmptyFrom rest 1 =
          (findFirstEmptyFrom rest 0).map (· + 1) := findFirstEmptyFrom_shift 1 rest 0
      rw [hs] at h
      have hr : findFirstEmptyFrom rest 0 = none := by
        cases hr : findFirstEmptyFrom rest 0 with
        | none => rfl
        | some e => rw [hr] at h; simp at h
      cases j with
      | zero => simpa using Bool.eq_false_iff.mpr hemp
      | succ j =>
        have : j < rest.length := by simpa using hj
        simpa using ih hr j this

theorem findFirstEmptyPlayerSlot_spec (inv : Option (List (Option Item))) (d : Nat)
    (h : findFirstEmptyPlayerSlot inv = some d) :
    ∃ pitems, inv = some pitems ∧ d < pitems.length
      ∧ isEmptyItem (pitems.getD d none) = true
      ∧ ∀ j, j < d → isEmptyItem (pitems.getD j none) = false := by
  cases inv with
  | none => simp [findFirstEmptyPlayerSlot] at h
  | some pitems => exact ⟨pitems, rfl, findFirstEmptyFrom_zero_spec pitems d h⟩

/-- Reduction of `clickSlot` under the guards that let it reach the send. -/
theorem clickSlot_reduce (s : ClickState) (items : List (Option Item))
    (w : Int) (i : Nat) (it : Item)
    (hsent : s.clickSent = false)
    (hstate : s.state = PState.WAIT_CONTAINER_CONTENT)
    (hitems : s.currentWindowItems = some items)
    (hwin : s.currentWindowId = some w)
    (hit : items.getD i none = some it)
    (hnz : it.network_id ≠ 0) :
    clickSlot true s w (i : Int) =
      ({ s with clickSent := true, state := PState.CLICK_SENT },
        some (match findFirstEmptyPlayerSlot s.playerInventoryItems with
              | some d => buildMoveToInventoryTransaction w i d it
              | none => buildNormalClickTransaction w i it)) := by
  have hnlt : ¬ ((i : Int) < 0) := by omega
  have htn : ((i : Int)).toNat = i := by omega
  have hbeq : (it.network_id == 0) = false := by
    simp [hnz]
  unfold clickSlot
  rw [hsent, hstate, hitems, hwin]
  simp only [Bool.false_eq_true, if_false, ne_eq, not_true_eq_false, htn, hit, hbeq]
  simp [hnlt]

/-- Reduction of `clickSlot` when the source slot is empty or missing. -/
theorem clickSlot_empty_source (s : ClickState) (items : List (Option Item))
    (w : Int) (i : Nat)
    (hsent : s.clickSent = false)
    (hstate : s.state = PState.WAIT_CONTAINER_CONTENT)
    (hitems : s.currentWindowItems = some items)
    (hwin : s.currentWindowId = some w)
    (hempty : isEmptyItem (items.getD i none) = true) :
    clickSlot true s w (i : Int) = (s, none) := by
  have hnlt : ¬ ((i : Int) < 0) := by omega
  have htn : ((i : Int)).toNat = i := by omega
  unfold clickSlot
  rw [hsent, hstate, hitems, hwin]
  simp only [Bool.false_eq_true, if_false, ne_eq, not_true_eq_false, htn]
  cases hit : items.getD i none with
  | none => simp [hnlt]
  | some it =>
    rw [hit] at hempty
    have : (it.network_id == 0) = true := by simpa [isEmptyItem] using hempty
    simp [hnlt, this]

/-- C4: under the `clickSlot` guards, for a non-empty source item at
`(windowId, slotIndex)`: when the player-inventory scan finds an empty slot
`d`, the sent transaction has exactly the two relocation actions (source
slot emptied, item placed at the least empty player slot `d` of window 0);
when it finds none — the snapshot is unknown or has no empty slot — the
sent transaction is the single identity acknowledgment action; and when the
source slot is empty or missing, nothing is sent and the state is
unchanged. -/
theorem C4_click_transaction_shape (s : ClickState) (items : List (Option Item))
    (w : Int) (i : Nat)
    (hsent : s.clickSent = false)
    (hstate : s.state = PState.WAIT_CONTAINER_CONTENT)
    (hitems : s.currentWindowItems = some items)
    (hwin : s.currentWindowId = some w) :
    (∀ it, items.getD i none = some it → it.network_id ≠ 0 →
      (∀ d, findFirstEmptyPlayerSlot s.playerInventoryItems = some d →
        (clickSlot true s w (i : Int)).2 =
          some (buildMoveToInventoryTransaction w i d it)
        ∧ (buildMoveToInventoryTransaction w i d it).actions =
            [ { source_type := "container", inventory_id := w, slot := i,
                old_item := it, new_item := EMPTY_ITEM },
              { source_type := "container", inventory_id := PLAYER_INVENTORY_WINDOW_ID,
                slot := d, old_item := EMPTY_ITEM, new_item := it } ]
        ∧ ∃ pitems, s.playerInventoryItems = some pitems ∧ d < pitems.length
            ∧ isEmptyItem (pitems.getD d none) = true
            ∧ ∀ j, j < d → isEmptyItem (pitems.getD j none) = false)
      ∧ (findFirstEmptyPlayerSlot s.playerInventoryItems = none →
        (clickSlot true s w (i : Int)).2 =
          some (buildNormalClickTransaction w i it)
        ∧ (buildNormalClickTransaction w i it).actions =
            [ { source_type := "container", inventory_id := w, slot := i,
                old_item := it, new_item := it } ]
        ∧ ∀ pitems, s.playerInventoryItems = some pitems →
            ∀ j, j < pitems.length → isEmptyItem (pitems.getD j none) = false))
    ∧ (isEmptyItem (items.getD i none) = true →
        clickSlot true s w (i : Int) = (s, none)) := by
  constructor
  · intro it hit hnz
    have hred := clickSlot_reduce s items w i it hsent hstate hitems hwin hit hnz
    constructor
    · intro d hfind
      rw [hred]
      rw [hfind]
      exact ⟨rfl, rfl, findFirstEmptyPlayerSlot_spec _ d hfind⟩
    · intro hfind
      rw [hred, hfind]
      refine ⟨rfl, rfl, ?_⟩
      intro pitems hp j hj
      rw [hp] at hfind
      exact findFirstEmptyFrom_zero_none pitems hfind j hj
  · intro hempty
    exact clickSlot_empty_source s items w i hsent hstate hitems hwin hempty

/-- Witness for C4: window 12, source slot 5 holding item id 7, player
inventory with its first empty slot at index 3 — the two-action relocation
is sent. -/
theorem C4_click_transaction_shape_witness :
    findFirstEmptyPlayerSlot
      (some [some { network_id := 2, count := 1, metadata := 0 },
             some { network_id := 3, count := 1, metadata := 0 },
             some { network_id := 4, count := 1, metadata := 0 }, none]) = some 3 ∧
    (clickSlot true
      { clickSent := false, state := PState.WAIT_CONTAINER_CONTENT,
        currentWindowId := some 12,
        currentWindowItems := some
          [none, none, none, none, none,
           some { network_id := 7, count := 1, metadata := 0 }],
        playerInventoryItems := some
          [some { network_id := 2, count := 1, metadata := 0 },
           some { network_id := 3, count := 1, metadata := 0 },
           some { network_id := 4, count := 1, metadata := 0 }, none] }
      12 ((5 : Nat) : Int)).2 =
      some (buildMoveToInventoryTransaction 12 5 3
        { network_id := 7, count := 1, metadata := 0 }) :=
  ⟨by decide,
    (((C4_click_transaction_shape
      { clickSent := false, state := PState.WAIT_CONTAINER_CONTENT,
        currentWindowId := some 12,
        currentWindowItems := some
          [none, none, none, none, none,
           some { network_id := 7, count := 1, metadata := 0 }],
        playerInventoryItems := some
          [some { network_id := 2, count := 1, metadata := 0 },
           some { network_id := 3, count := 1, metadata := 0 },
           some { network_id := 4, count := 1, metadata := 0 }, none] }
      [none, none, none, none, none,
       some { network_id := 7, count := 1, metadata := 0 }]
      12 5 rfl rfl rfl rfl).1
      { network_id := 7, count := 1, metadata := 0 } (by decide) (by decide)).1
      3 (by decide)).1⟩

end Flamawings
